import Mathlib

/-!
Shallow embedding of the Alicloud botanist infrastructure lifecycle code
(`alicloudbotanist` package: `DeployInfrastructure`, `DestroyBackupInfrastructure`,
`generateTerraformInfraConfig`, `fetchEIPInternetChargeType`, `cleanSnapshots`).

External collaborators (the terraformer convergence engine, the OSS object
storage SDK, the Alicloud provider client, secrets) are modelled as explicit
environments: each fallible external call is an oracle value or oracle function
in an environment record, consumed in exactly the order the Go code performs
the calls.  Control flow, error propagation and the data threaded between the
calls are translated directly from the source.
-/

set_option autoImplicit false

namespace Alicloudbotanist

/-- Errors returned by external calls.  `notFoundState` is the tagged
"no matching prior output exists" result of a state query (spec §7 and glossary:
`NotFoundState`); every other failure is `other`. -/
inductive Err where
  | notFoundState
  | other (msg : String)
deriving DecidableEq

/-- Modelled from the spec: `terraformer.IsVariablesNotFoundError` (repository
code outside `src/`) recognises the `NotFoundState` result of
`GetStateOutputVariables` — "reports `NotFoundState` when no prior successful
apply exists". -/
def IsVariablesNotFoundError (e : Err) : Bool :=
  match e with
  | Err.notFoundState => true
  | Err.other _ => false

/-- Modelled from the spec: `apierrors.IsNotFound` (external k8s helper used on
the state-query error in `fetchEIPInternetChargeType`) recognises the same
`NotFoundState` result, the spec's single tagged not-found state outcome. -/
def IsNotFound (e : Err) : Bool :=
  match e with
  | Err.notFoundState => true
  | Err.other _ => false

/-- Modelled from the spec: `alicloud.DefaultInternetChargeType` (repository
code outside `src/`), the "documented provider default" internet charge type
substituted when no prior convergence state exists. -/
def DefaultInternetChargeType : String := "PayByTraffic"

/-- One response of the object storage to a `ListObjects` call, together with
the outcome of the `DeleteObjects` call the purge loop issues on that page:
either the listing fails, or it delivers a page of object keys with its
truncation flag and the pre-determined result of deleting exactly those keys. -/
inductive PageResp where
  | listErr (e : Err)
  | page (objects : List String) (isTruncated : Bool) (delResult : Except Err Unit)

/-- The `for { ListObjects; DeleteObjects; if !IsTruncated break }` loop of
`cleanSnapshots`, consuming the storage responses in order.  Returns `none`
when the response list is exhausted while the loop still wants another page
(the environment under-specifies the run); otherwise the loop's result, the
number of `ListObjects` calls issued, and the exact key batch of every
`DeleteObjects` call issued (the failed one included). -/
def cleanSnapshotsRun : List PageResp → Option (Except Err Unit × Nat × List (List String))
  | [] => none
  | PageResp.listErr e :: _ => some (Except.error e, 1, [])
  | PageResp.page objs isTrunc delRes :: rest =>
    match delRes with
    | Except.error e => some (Except.error e, 1, [objs])
    | Except.ok _ =>
      if isTrunc then
        match cleanSnapshotsRun rest with
        | none => none
        | some (r, n, bs) => some (r, n + 1, objs :: bs)
      else
        some (Except.ok (), 1, [objs])

/-- Object storage environment: outcomes of `oss.New(endpoint, keyID, keySecret)`
and `client.Bucket(bucketName)`, and the listing/deletion responses of the
bucket. -/
structure OssEnv where
  ossNew : String → String → String → Except Err Unit
  bucketOpen : String → Except Err Unit
  pages : List PageResp

/-- `cleanSnapshots(bucketName, storageEndpoint, accessKeyID, accessKeySecret)`:
build the OSS client, open the bucket, then run the list/delete loop. -/
def cleanSnapshots (bucketName storageEndpoint accessKeyID accessKeySecret : String)
    (env : OssEnv) : Option (Except Err Unit × Nat × List (List String)) :=
  match env.ossNew storageEndpoint accessKeyID accessKeySecret with
  | Except.error e => some (Except.error e, 0, [])
  | Except.ok _ =>
    match env.bucketOpen bucketName with
    | Except.error e => some (Except.error e, 0, [])
    | Except.ok _ => cleanSnapshotsRun env.pages

/-- The two state output variables `DestroyBackupInfrastructure` reads:
`stateVariables[BucketName]` and `stateVariables[StorageEndpoint]`. -/
structure StateVars where
  bucketName : String
  storageEndpoint : String

/-- Environment of one `DestroyBackupInfrastructure` invocation: outcome of
`NewBackupInfrastructureTerraformer`, of `GetStateOutputVariables(BucketName,
StorageEndpoint)`, the seed secret's storage credentials, the object storage
behaviour, and the outcome the engine's `Destroy` would report if called. -/
structure DestroyEnv where
  newTf : Except Err Unit
  getState : Except Err StateVars
  seedAccessKeyID : String
  seedAccessKeySecret : String
  oss : OssEnv
  destroyResult : Except Err Unit

/-- Observable calls of one backup destroy run: how many `ListObjects` calls
were issued, the key batch of each `DeleteObjects` call issued, and whether the
engine's `Destroy` was invoked. -/
structure DestroyTrace where
  listCalls : Nat
  deleteBatches : List (List String)
  destroyCalled : Bool
deriving DecidableEq

/-- `DestroyBackupInfrastructure`: create the backup terraformer, read the
state output variables (a variables-not-found result is swallowed and reported
as success, skipping everything else), purge the bucket via `cleanSnapshots`,
and only if the purge fully succeeded submit the engine's `Destroy`.  `none`
models a run the environment under-specifies (purge loop ran out of responses). -/
def DestroyBackupInfrastructure (env : DestroyEnv) :
    Option (Except Err Unit × DestroyTrace) :=
  match env.newTf with
  | Except.error e => some (Except.error e, ⟨0, [], false⟩)
  | Except.ok _ =>
    match env.getState with
    | Except.error e =>
      if IsVariablesNotFoundError e then some (Except.ok (), ⟨0, [], false⟩)
      else some (Except.error e, ⟨0, [], false⟩)
    | Except.ok sv =>
      match cleanSnapshots sv.bucketName sv.storageEndpoint
          env.seedAccessKeyID env.seedAccessKeySecret env.oss with
      | none => none
      | some (Except.error e, n, bs) => some (Except.error e, ⟨n, bs, false⟩)
      | some (Except.ok _, n, bs) => some (env.destroyResult, ⟨n, bs, true⟩)

/-- Environment of one `fetchEIPInternetChargeType` call: outcome of
`NewShootTerraformer(TerraformerPurposeInfra)`, of
`tf.GetStateOutputVariables("vpc_id")` (the value `stateVariables["vpc_id"]`
on success), and the provider client's `GetEIPInternetChargeType` query
response as a function of the vpc id passed to it. -/
structure ChargeEnv where
  newShootTf : Except Err Unit
  getStateVpcID : Except Err String
  getEIPInternetChargeType : String → Except Err String

/-- `fetchEIPInternetChargeType`: read `"vpc_id"` from the infra terraformer's
state output; a not-found result yields the documented default charge type; a
found vpc id is passed to the provider client's `GetEIPInternetChargeType`. -/
def fetchEIPInternetChargeType (env : ChargeEnv) : Except Err String :=
  match env.newShootTf with
  | Except.error e => Except.error e
  | Except.ok _ =>
    match env.getStateVpcID with
    | Except.error e =>
      if IsNotFound e then Except.ok DefaultInternetChargeType
      else Except.error e
    | Except.ok vpcID => env.getEIPInternetChargeType vpcID

/-- The optional fields of `Spec.Cloud.Alicloud.Networks.VPC`: an existing vpc
id, and a vpc CIDR for the creation path. -/
structure VPCSpec where
  id : Option String
  cidr : Option String
deriving DecidableEq

/-- Fields of the shoot spec the infrastructure deploy reads. -/
structure ShootSpec where
  region : String
  zones : List String
  workers : List String
  vpc : VPCSpec
deriving DecidableEq

/-- One entry of the config's `zones` array: `{name, cidr.worker}`. -/
structure ZoneEntry where
  name : String
  workerCIDR : String
deriving DecidableEq

/-- The `vpc` block of the generated config. -/
structure VPCConfig where
  cidr : String
  id : String
  natGatewayID : String
  snatTableID : String
  internetChargeType : String
deriving DecidableEq

/-- The map `generateTerraformInfraConfig` returns, as a record:
`alicloud.region`, `create.vpc`, the `vpc` block, `clusterName`,
`sshPublicKey` and the per-zone array. -/
structure InfraConfig where
  region : String
  createVPC : Bool
  vpc : VPCConfig
  clusterName : String
  sshPublicKey : String
  zones : List ZoneEntry
deriving DecidableEq

/-- The `for idx, zone := range Zones` loop pairing each zone name with the
index-aligned worker CIDR `Workers[idx]`.  `none` models the index-out-of-range
panic raised at `Workers[idx]` when the worker list is shorter than the zone
list. -/
def buildZones : List String → List String → Option (List ZoneEntry)
  | [], _ => some []
  | _ :: _, [] => none
  | z :: zs, w :: ws => (buildZones zs ws).map (fun rest => ZoneEntry.mk z w :: rest)

/-- `generateTerraformInfraConfig(createVPC, vpcID, natGatewayID, snatTableID,
vpcCIDR)`: fetch the EIP internet charge type (through the terraformer state
and the provider client), then assemble the config map from the shoot spec,
the seed namespace, the ssh public key secret and the vpc settings.  The outer
`none` models the `Workers[idx]` index-out-of-range panic of the zones loop,
which the Go code reaches only after the charge-type fetch succeeded. -/
def generateTerraformInfraConfig (spec : ShootSpec) (seedNamespace sshPublicKey : String)
    (chargeEnv : ChargeEnv) (createVPC : Bool)
    (vpcID natGatewayID snatTableID vpcCIDR : String) : Option (Except Err InfraConfig) :=
  match fetchEIPInternetChargeType chargeEnv with
  | Except.error e => some (Except.error e)
  | Except.ok chargeType =>
    match buildZones spec.zones spec.workers with
    | none => none
    | some zs =>
      some (Except.ok
        { region := spec.region
          createVPC := createVPC
          vpc := ⟨vpcCIDR, vpcID, natGatewayID, snatTableID, chargeType⟩
          clusterName := seedNamespace
          sshPublicKey := sshPublicKey
          zones := zs })

/-- Initial value of `vpcID` in `DeployInfrastructure`: the placeholder kept
when a new vpc is created. -/
def vpcPlaceholderID : String := "${alicloud_vpc.vpc.id}"

/-- Initial value of `natGatewayID` in `DeployInfrastructure`. -/
def natGatewayPlaceholderID : String := "${alicloud_nat_gateway.nat_gateway.id}"

/-- Initial value of `snatTableID` in `DeployInfrastructure`. -/
def snatTablePlaceholderID : String := "${alicloud_nat_gateway.nat_gateway.snat_table_ids}"

/-- Environment of one `DeployInfrastructure` invocation: the provider client's
read-only queries `GetCIDR` and `GetNatGatewayInfo`, the outcome of the
`NewShootTerraformer` call of line 53, and the charge-type environment consumed
inside `generateTerraformInfraConfig`. -/
structure DeployEnv where
  getCIDR : String → Except Err String
  getNatGatewayInfo : String → Except Err (String × String)
  newShootTf : Except Err Unit
  chargeEnv : ChargeEnv

/-- The vpc settings `DeployInfrastructure` resolves before building the
config: `(createVPC, vpcID, natGatewayID, snatTableID, vpcCIDR)`.  When an
existing vpc id is supplied, its CIDR and NAT gateway info are discovered via
the provider client and any failure aborts; otherwise the placeholders are kept
and the spec's vpc CIDR pointer is dereferenced — `none` models the nil-pointer
panic when that field is absent. -/
def resolveVPCSettings (vpc : VPCSpec) (env : DeployEnv) :
    Option (Except Err (Bool × String × String × String × String)) :=
  match vpc.id with
  | some vid =>
    match env.getCIDR vid with
    | Except.error e => some (Except.error e)
    | Except.ok vpcCIDR =>
      match env.getNatGatewayInfo vid with
      | Except.error e => some (Except.error e)
      | Except.ok (natGatewayID, snatTableID) =>
        some (Except.ok (false, vid, natGatewayID, snatTableID, vpcCIDR))
  | none =>
    match vpc.cidr with
    | none => none
    | some c =>
      some (Except.ok (true, vpcPlaceholderID, natGatewayPlaceholderID,
        snatTablePlaceholderID, c))

/-- `DeployInfrastructure` up to the configuration it hands to the convergence
engine: resolve the vpc settings, create the shoot terraformer, and build the
config with `generateTerraformInfraConfig`.  `none` models a panic: the
nil-pointer dereference of the creation path on a spec with no vpc CIDR, or the
`Workers[idx]` index-out-of-range panic inside the config build. -/
def deployInfraConfig (spec : ShootSpec) (seedNamespace sshPublicKey : String)
    (env : DeployEnv) : Option (Except Err InfraConfig) :=
  match resolveVPCSettings spec.vpc env with
  | none => none
  | some (Except.error e) => some (Except.error e)
  | some (Except.ok (createVPC, vpcID, natGatewayID, snatTableID, vpcCIDR)) =>
    match env.newShootTf with
    | Except.error e => some (Except.error e)
    | Except.ok _ =>
      generateTerraformInfraConfig spec seedNamespace sshPublicKey
        env.chargeEnv createVPC vpcID natGatewayID snatTableID vpcCIDR

/-! ### Helper lemmas -/

/-- A successful `generateTerraformInfraConfig` copies the vpc settings it was
given into the `create.vpc` flag and the `vpc` block of the config. -/
lemma generateTerraformInfraConfig_ok_fields (spec : ShootSpec) (ns key : String)
    (cEnv : ChargeEnv) (cV : Bool) (vID nID sID cidr : String) (cfg : InfraConfig)
    (h : generateTerraformInfraConfig spec ns key cEnv cV vID nID sID cidr
      = some (Except.ok cfg)) :
    cfg.createVPC = cV ∧ cfg.vpc.cidr = cidr ∧ cfg.vpc.id = vID ∧
    cfg.vpc.natGatewayID = nID ∧ cfg.vpc.snatTableID = sID := by
  unfold generateTerraformInfraConfig at h
  cases hf : fetchEIPInternetChargeType cEnv with
  | error e => simp [hf] at h
  | ok ct =>
    cases hz : buildZones spec.zones spec.workers with
    | none => simp [hf, hz] at h
    | some zs =>
      simp only [hf, hz] at h
      injection h with h1
      injection h1 with h2
      subst h2
      exact ⟨rfl, rfl, rfl, rfl, rfl⟩

/-- A defined, successful deploy with an existing vpc id builds the config from
the discovered CIDR and NAT gateway info, with the creation flag cleared. -/
lemma deployInfraConfig_ok_adopted (spec : ShootSpec) (ns key : String)
    (env : DeployEnv) (vid : String) (cfg : InfraConfig)
    (hid : spec.vpc.id = some vid)
    (h : deployInfraConfig spec ns key env = some (Except.ok cfg)) :
    ∃ cidr natID snatID,
      env.getCIDR vid = Except.ok cidr ∧
      env.getNatGatewayInfo vid = Except.ok (natID, snatID) ∧
      cfg.createVPC = false ∧ cfg.vpc.id = vid ∧ cfg.vpc.cidr = cidr ∧
      cfg.vpc.natGatewayID = natID ∧ cfg.vpc.snatTableID = snatID := by
  unfold deployInfraConfig resolveVPCSettings at h
  cases hc : env.getCIDR vid with
  | error e => simp [hid, hc] at h
  | ok cidr =>
    cases hn : env.getNatGatewayInfo vid with
    | error e => simp [hid, hc, hn] at h
    | ok natsnat =>
      obtain ⟨natID, snatID⟩ := natsnat
      cases htf : env.newShootTf with
      | error e => simp [hid, hc, hn, htf] at h
      | ok u =>
        simp only [hid, hc, hn, htf] at h
        obtain ⟨h1, h2, h3, h4, h5⟩ :=
          generateTerraformInfraConfig_ok_fields spec ns key env.chargeEnv
            false vid natID snatID cidr cfg h
        exact ⟨cidr, natID, snatID, rfl, rfl, h1, h3, h2, h4, h5⟩

/-- A defined, successful deploy with no existing vpc id builds the config from
the spec's vpc CIDR and the three placeholder identifiers, with the creation
flag set. -/
lemma deployInfraConfig_ok_fresh (spec : ShootSpec) (ns key : String)
    (env : DeployEnv) (cfg : InfraConfig)
    (hid : spec.vpc.id = none)
    (h : deployInfraConfig spec ns key env = some (Except.ok cfg)) :
    ∃ c, spec.vpc.cidr = some c ∧ cfg.createVPC = true ∧ cfg.vpc.cidr = c ∧
      cfg.vpc.id = vpcPlaceholderID ∧ cfg.vpc.natGatewayID = natGatewayPlaceholderID ∧
      cfg.vpc.snatTableID = snatTablePlaceholderID := by
  unfold deployInfraConfig resolveVPCSettings at h
  cases hcd : spec.vpc.cidr with
  | none => simp [hid, hcd] at h
  | some c =>
    cases htf : env.newShootTf with
    | error e => simp [hid, hcd, htf] at h
    | ok u =>
      simp only [hid, hcd, htf] at h
      obtain ⟨h1, h2, h3, h4, h5⟩ :=
        generateTerraformInfraConfig_ok_fields spec ns key env.chargeEnv
          true vpcPlaceholderID natGatewayPlaceholderID snatTablePlaceholderID c cfg h
      exact ⟨c, rfl, h1, h2, h3, h4, h5⟩

/-- A purge run over a prefix of successfully listed-and-deleted truncated
pages followed by a failing call (a listing error, or a page whose batch-delete
fails) returns that error after exactly one list call past the prefix,
regardless of any further responses the storage could have delivered. -/
lemma cleanSnapshotsRun_fail_prefix (pre suf : List PageResp) (f : PageResp) (e : Err)
    (hpre : ∀ p ∈ pre, ∃ ks, p = PageResp.page ks true (Except.ok ()))
    (hf : f = PageResp.listErr e ∨ ∃ ks tr, f = PageResp.page ks tr (Except.error e)) :
    ∃ bs, cleanSnapshotsRun (pre ++ f :: suf) = some (Except.error e, pre.length + 1, bs) := by
  induction pre with
  | nil =>
    rcases hf with h | ⟨ks, tr, h⟩ <;> subst h
    · exact ⟨[], rfl⟩
    · exact ⟨[ks], rfl⟩
  | cons p ps ih =>
    obtain ⟨ks, hp⟩ := hpre p (List.mem_cons_self p ps)
    subst hp
    obtain ⟨bs, hbs⟩ := ih (fun q hq => hpre q (List.mem_cons_of_mem _ hq))
    refine ⟨ks :: bs, ?_⟩
    simp [cleanSnapshotsRun, hbs, Nat.add_assoc]

/-- The zones loop is defined exactly when the zone list does not outrun the
worker list; this direction: alignment implies definedness. -/
lemma buildZones_isSome (zones : List String) :
    ∀ workers : List String, zones.length ≤ workers.length →
      (buildZones zones workers).isSome := by
  induction zones with
  | nil => intro workers h; simp [buildZones]
  | cons z zs ih =>
    intro workers h
    cases workers with
    | nil => simp at h
    | cons w ws =>
      have h' : zs.length ≤ ws.length := by
        simp at h
        omega
      cases hb : buildZones zs ws with
      | none =>
        have hzs := ih ws h'
        rw [hb] at hzs
        simp at hzs
      | some rest => simp [buildZones, hb]

/-- The config build never hits the `Workers[idx]` panic when the zone list
does not outrun the worker list. -/
lemma generateTerraformInfraConfig_isSome (spec : ShootSpec) (ns key : String)
    (cEnv : ChargeEnv) (cV : Bool) (vID nID sID cidr : String)
    (h : spec.zones.length ≤ spec.workers.length) :
    (generateTerraformInfraConfig spec ns key cEnv cV vID nID sID cidr).isSome := by
  unfold generateTerraformInfraConfig
  cases hf : fetchEIPInternetChargeType cEnv with
  | error e => simp
  | ok ct =>
    cases hz : buildZones spec.zones spec.workers with
    | none =>
      have hb := buildZones_isSome spec.zones spec.workers h
      rw [hz] at hb
      simp at hb
    | some zs => simp

/-! ### Claim theorems -/

/-- Claim C2: when reading the prior convergence state for
`{bucketName, storageEndpoint}` reports `NotFoundState`,
`DestroyBackupInfrastructure` returns success and neither the object storage
client (no list call, no delete batch) nor the engine's `Destroy` is invoked. -/
theorem destroyBackup_notFoundState_skips (env : DestroyEnv)
    (h1 : env.newTf = Except.ok ())
    (h2 : env.getState = Except.error Err.notFoundState) :
    DestroyBackupInfrastructure env = some (Except.ok (), ⟨0, [], false⟩) := by
  simp [DestroyBackupInfrastructure, h1, h2, IsVariablesNotFoundError]

/-- Witness for C2 at a concrete environment. -/
theorem destroyBackup_notFoundState_skips_witness :
    DestroyBackupInfrastructure
      ⟨Except.ok (), Except.error Err.notFoundState, "ak", "sk",
        ⟨fun _ _ _ => Except.ok (), fun _ => Except.ok (), []⟩, Except.ok ()⟩ =
      some (Except.ok (), ⟨0, [], false⟩) :=
  destroyBackup_notFoundState_skips _ rfl rfl

/-- Claim C4: when the deploy-time state lookup of the vpc id reports
`NotFoundState`, the resolved internet charge type is the documented provider
default and the lookup does not fail the deploy. -/
theorem fetchEIP_notFoundState_default (env : ChargeEnv)
    (h1 : env.newShootTf = Except.ok ())
    (h2 : env.getStateVpcID = Except.error Err.notFoundState) :
    fetchEIPInternetChargeType env = Except.ok DefaultInternetChargeType := by
  simp [fetchEIPInternetChargeType, h1, h2, IsNotFound]

/-- Witness for C4 at a concrete environment. -/
theorem fetchEIP_notFoundState_default_witness :
    fetchEIPInternetChargeType
      ⟨Except.ok (), Except.error Err.notFoundState, fun _ => Except.ok ""⟩ =
      Except.ok DefaultInternetChargeType :=
  fetchEIP_notFoundState_default _ rfl rfl

/-- Claim C8: a bucket delivering three pages with truncation flags
`[true, true, false]` makes the purge issue exactly 3 list calls and 3
batch-delete calls, one per page's exact key set, and terminate successfully. -/
theorem cleanSnapshots_three_pages (bn ep ak sk : String) (k1 k2 k3 : List String) :
    cleanSnapshots bn ep ak sk
      ⟨fun _ _ _ => Except.ok (), fun _ => Except.ok (),
        [PageResp.page k1 true (Except.ok ()),
         PageResp.page k2 true (Except.ok ()),
         PageResp.page k3 false (Except.ok ())]⟩ =
      some (Except.ok (), 3, [k1, k2, k3]) := rfl

/-- Claim C9: a bucket whose first listed page is empty and not truncated makes
the purge terminate successfully after exactly one iteration — one list call
and a single batch-delete call carrying zero keys, so zero objects deleted —
regardless of any further responses the storage could have delivered. -/
theorem cleanSnapshots_empty_first_page (bn ep ak sk : String) (rest : List PageResp) :
    cleanSnapshots bn ep ak sk
      ⟨fun _ _ _ => Except.ok (), fun _ => Except.ok (),
        PageResp.page [] false (Except.ok ()) :: rest⟩ =
      some (Except.ok (), 1, [[]]) := rfl

/-- Claim C1: if any listing call or batch-delete call of the purge fails, the
purge stops immediately (exactly one list call past the successful prefix, no
matter what further pages the storage could deliver), backup destroy returns
that error, and the engine's `Destroy` is never called. -/
theorem destroyBackup_purge_failure_aborts (env : DestroyEnv) (sv : StateVars)
    (pre suf : List PageResp) (f : PageResp) (e : Err)
    (h1 : env.newTf = Except.ok ())
    (h2 : env.getState = Except.ok sv)
    (h3 : env.oss.ossNew sv.storageEndpoint env.seedAccessKeyID env.seedAccessKeySecret
      = Except.ok ())
    (h4 : env.oss.bucketOpen sv.bucketName = Except.ok ())
    (h5 : env.oss.pages = pre ++ f :: suf)
    (hpre : ∀ p ∈ pre, ∃ ks, p = PageResp.page ks true (Except.ok ()))
    (hf : f = PageResp.listErr e ∨ ∃ ks tr, f = PageResp.page ks tr (Except.error e)) :
    ∃ bs, DestroyBackupInfrastructure env =
      some (Except.error e, ⟨pre.length + 1, bs, false⟩) := by
  obtain ⟨bs, hbs⟩ := cleanSnapshotsRun_fail_prefix pre suf f e hpre hf
  refine ⟨bs, ?_⟩
  simp [DestroyBackupInfrastructure, cleanSnapshots, h1, h2, h3, h4, h5, hbs]

/-- Witness for C1 at a concrete environment: one successful truncated page,
then a failing list call. -/
theorem destroyBackup_purge_failure_aborts_witness :
    ∃ bs, DestroyBackupInfrastructure
      ⟨Except.ok (), Except.ok ⟨"bkt", "ep"⟩, "ak", "sk",
        ⟨fun _ _ _ => Except.ok (), fun _ => Except.ok (),
          [PageResp.page ["o1"] true (Except.ok ()),
           PageResp.listErr (Err.other "boom")]⟩, Except.ok ()⟩ =
      some (Except.error (Err.other "boom"), ⟨2, bs, false⟩) :=
  destroyBackup_purge_failure_aborts _ ⟨"bkt", "ep"⟩
    [PageResp.page ["o1"] true (Except.ok ())] [] (PageResp.listErr (Err.other "boom"))
    (Err.other "boom") rfl rfl rfl rfl rfl
    (by intro p hp
        rw [List.mem_singleton] at hp
        exact ⟨["o1"], hp⟩)
    (Or.inl rfl)

/-- Claim C3 counterexample: two deploys whose stored convergence state is
identical (`vpc_id = "vpc-1"`) resolve different internet charge types when
the provider answers differently, so the resolved charge type is not a
function of the stored state output alone — `fetchEIPInternetChargeType`
forwards the state-resolved vpc id to a live provider query. -/
theorem fetchEIP_not_state_function :
    fetchEIPInternetChargeType
      ⟨Except.ok (), Except.ok "vpc-1", fun _ => Except.ok "PayByBandwidth"⟩ ≠
    fetchEIPInternetChargeType
      ⟨Except.ok (), Except.ok "vpc-1", fun _ => Except.ok "PayByTraffic"⟩ := by
  simp [fetchEIPInternetChargeType]

/-- Claim C3 (amended): the vpc id used for the charge-type resolution is read
from prior convergence state (output name `vpc_id`), not discovered live; the
charge type itself is then obtained by the provider client's live
`GetEIPInternetChargeType` query at exactly that state-resolved id. -/
theorem fetchEIP_uses_state_vpcID_for_provider_query (env : ChargeEnv) (vid : String)
    (h1 : env.newShootTf = Except.ok ())
    (h2 : env.getStateVpcID = Except.ok vid) :
    fetchEIPInternetChargeType env = env.getEIPInternetChargeType vid := by
  simp [fetchEIPInternetChargeType, h1, h2]

/-- Witness for the amended C3 at a concrete environment. -/
theorem fetchEIP_uses_state_vpcID_for_provider_query_witness :
    fetchEIPInternetChargeType
      ⟨Except.ok (), Except.ok "vpc-7", fun _ => Except.ok "PayByBandwidth"⟩ =
      Except.ok "PayByBandwidth" :=
  fetchEIP_uses_state_vpcID_for_provider_query
    ⟨Except.ok (), Except.ok "vpc-7", fun _ => Except.ok "PayByBandwidth"⟩ "vpc-7" rfl rfl

/-- Claim C5 counterexample: two `generateTerraformInfraConfig` calls with
byte-identical spec, cluster identifier, SSH key and vpc settings but different
convergence-state/provider environments produce different configs — the
builder contacts the convergence state (and the provider) through
`fetchEIPInternetChargeType`, so it is not a pure function of
`(spec, discoveredOrDefaults, sshKey)` alone. -/
theorem generateConfig_not_pure_in_claimed_inputs :
    generateTerraformInfraConfig
      ⟨"eu-central-1", ["z1"], ["10.250.0.0/19"], ⟨none, some "10.250.0.0/16"⟩⟩
      "shoot--foo--bar" "ssh-rsa AAA"
      ⟨Except.ok (), Except.error Err.notFoundState, fun _ => Except.ok ""⟩
      true vpcPlaceholderID natGatewayPlaceholderID snatTablePlaceholderID
      "10.250.0.0/16" ≠
    generateTerraformInfraConfig
      ⟨"eu-central-1", ["z1"], ["10.250.0.0/19"], ⟨none, some "10.250.0.0/16"⟩⟩
      "shoot--foo--bar" "ssh-rsa AAA"
      ⟨Except.ok (), Except.ok "vpc-1", fun _ => Except.ok "PayByBandwidth"⟩
      true vpcPlaceholderID natGatewayPlaceholderID snatTablePlaceholderID
      "10.250.0.0/16" := by
  simp [generateTerraformInfraConfig, fetchEIPInternetChargeType, IsNotFound,
    DefaultInternetChargeType, buildZones]

/-- Claim C5 (amended): `generateTerraformInfraConfig` is deterministic given
the spec, cluster identifier, SSH key, vpc settings and the resolved internet
charge type: any two environments on which `fetchEIPInternetChargeType` agrees
yield byte-identical configs for identical remaining inputs. -/
theorem generateConfig_deterministic_given_chargeType (cEnv cEnv' : ChargeEnv)
    (h : fetchEIPInternetChargeType cEnv = fetchEIPInternetChargeType cEnv')
    (spec : ShootSpec) (ns key : String) (cV : Bool)
    (vID nID sID cidr : String) :
    generateTerraformInfraConfig spec ns key cEnv cV vID nID sID cidr =
    generateTerraformInfraConfig spec ns key cEnv' cV vID nID sID cidr := by
  unfold generateTerraformInfraConfig
  rw [h]

/-- Witness for the amended C5: two distinct concrete environments resolving
the same charge type yield the same config. -/
theorem generateConfig_deterministic_given_chargeType_witness :
    generateTerraformInfraConfig
      ⟨"eu-central-1", ["z1"], ["10.250.0.0/19"], ⟨none, some "10.250.0.0/16"⟩⟩
      "shoot--foo--bar" "ssh-rsa AAA"
      ⟨Except.ok (), Except.error Err.notFoundState, fun _ => Except.ok ""⟩
      true vpcPlaceholderID natGatewayPlaceholderID snatTablePlaceholderID
      "10.250.0.0/16" =
    generateTerraformInfraConfig
      ⟨"eu-central-1", ["z1"], ["10.250.0.0/19"], ⟨none, some "10.250.0.0/16"⟩⟩
      "shoot--foo--bar" "ssh-rsa AAA"
      ⟨Except.ok (), Except.ok "vpc-1", fun _ => Except.ok "PayByTraffic"⟩
      true vpcPlaceholderID natGatewayPlaceholderID snatTablePlaceholderID
      "10.250.0.0/16" :=
  generateConfig_deterministic_given_chargeType
    ⟨Except.ok (), Except.error Err.notFoundState, fun _ => Except.ok ""⟩
    ⟨Except.ok (), Except.ok "vpc-1", fun _ => Except.ok "PayByTraffic"⟩
    rfl _ _ _ _ _ _ _ _

/-- Claim C6: on every defined, successful deploy the built config's creation
flag is true iff no existing vpc id was supplied; and with existing id
`net-123`, discovered CIDR `10.0.0.0/16`, NAT gateway `ngw-1` and SNAT table
`snat-1`, the built config has `create.vpc = false` and vpc block fields
`id = "net-123"`, `cidr = "10.0.0.0/16"`, `natGatewayID = "ngw-1"`,
`snatTableID = "snat-1"`. -/
theorem deploy_createFlag_iff_and_adoption :
    (∀ (spec : ShootSpec) (ns key : String) (env : DeployEnv) (cfg : InfraConfig),
        deployInfraConfig spec ns key env = some (Except.ok cfg) →
        (cfg.createVPC = true ↔ spec.vpc.id = none)) ∧
    (∀ (spec : ShootSpec) (ns key : String) (env : DeployEnv) (cfg : InfraConfig),
        spec.vpc.id = some "net-123" →
        env.getCIDR "net-123" = Except.ok "10.0.0.0/16" →
        env.getNatGatewayInfo "net-123" = Except.ok ("ngw-1", "snat-1") →
        deployInfraConfig spec ns key env = some (Except.ok cfg) →
        cfg.createVPC = false ∧ cfg.vpc.id = "net-123" ∧
        cfg.vpc.cidr = "10.0.0.0/16" ∧ cfg.vpc.natGatewayID = "ngw-1" ∧
        cfg.vpc.snatTableID = "snat-1") := by
  constructor
  · intro spec ns key env cfg h
    cases hid : spec.vpc.id with
    | some vid =>
      obtain ⟨_, _, _, _, _, hfalse, _⟩ := deployInfraConfig_ok_adopted spec ns key env vid cfg hid h
      simp [hfalse]
    | none =>
      obtain ⟨_, _, htrue, _⟩ := deployInfraConfig_ok_fresh spec ns key env cfg hid h
      simp [htrue]
  · intro spec ns key env cfg hid hc hn h
    obtain ⟨cidr, natID, snatID, hc', hn', h1, h2, h3, h4, h5⟩ :=
      deployInfraConfig_ok_adopted spec ns key env "net-123" cfg hid h
    rw [hc] at hc'
    rw [hn] at hn'
    injection hc' with hco
    injection hn' with hno
    injection hno with hn1 hn2
    subst hco
    subst hn1
    subst hn2
    exact ⟨h1, h2, h3, h4, h5⟩

/-- Witness for C6 at a concrete spec and environment adopting `net-123`. -/
theorem deploy_createFlag_iff_and_adoption_witness :
    (⟨"eu-central-1", false,
        ⟨"10.0.0.0/16", "net-123", "ngw-1", "snat-1", DefaultInternetChargeType⟩,
        "cluster-ns", "ssh-key", [⟨"z1", "w1"⟩]⟩ : InfraConfig).createVPC = false ∧
    (⟨"eu-central-1", false,
        ⟨"10.0.0.0/16", "net-123", "ngw-1", "snat-1", DefaultInternetChargeType⟩,
        "cluster-ns", "ssh-key", [⟨"z1", "w1"⟩]⟩ : InfraConfig).vpc.id = "net-123" ∧
    (⟨"eu-central-1", false,
        ⟨"10.0.0.0/16", "net-123", "ngw-1", "snat-1", DefaultInternetChargeType⟩,
        "cluster-ns", "ssh-key", [⟨"z1", "w1"⟩]⟩ : InfraConfig).vpc.cidr = "10.0.0.0/16" ∧
    (⟨"eu-central-1", false,
        ⟨"10.0.0.0/16", "net-123", "ngw-1", "snat-1", DefaultInternetChargeType⟩,
        "cluster-ns", "ssh-key", [⟨"z1", "w1"⟩]⟩ : InfraConfig).vpc.natGatewayID = "ngw-1" ∧
    (⟨"eu-central-1", false,
        ⟨"10.0.0.0/16", "net-123", "ngw-1", "snat-1", DefaultInternetChargeType⟩,
        "cluster-ns", "ssh-key", [⟨"z1", "w1"⟩]⟩ : InfraConfig).vpc.snatTableID = "snat-1" :=
  deploy_createFlag_iff_and_adoption.2
    ⟨"eu-central-1", ["z1"], ["w1"], ⟨some "net-123", none⟩⟩ "cluster-ns" "ssh-key"
    ⟨fun _ => Except.ok "10.0.0.0/16", fun _ => Except.ok ("ngw-1", "snat-1"),
      Except.ok (), ⟨Except.ok (), Except.error Err.notFoundState, fun _ => Except.ok ""⟩⟩
    ⟨"eu-central-1", false,
      ⟨"10.0.0.0/16", "net-123", "ngw-1", "snat-1", DefaultInternetChargeType⟩,
      "cluster-ns", "ssh-key", [⟨"z1", "w1"⟩]⟩
    rfl rfl rfl rfl

/-- Claim C7: on every defined, successful deploy with no existing vpc id and
spec vpc CIDR `10.1.0.0/16`, the built config has `create.vpc = true`, vpc CIDR
`10.1.0.0/16`, and the three placeholder-generated identifiers rather than
externally supplied ones. -/
theorem deploy_fresh_placeholders (spec : ShootSpec) (ns key : String)
    (env : DeployEnv) (cfg : InfraConfig)
    (hid : spec.vpc.id = none)
    (hcd : spec.vpc.cidr = some "10.1.0.0/16")
    (h : deployInfraConfig spec ns key env = some (Except.ok cfg)) :
    cfg.createVPC = true ∧ cfg.vpc.cidr = "10.1.0.0/16" ∧
    cfg.vpc.id = vpcPlaceholderID ∧ cfg.vpc.natGatewayID = natGatewayPlaceholderID ∧
    cfg.vpc.snatTableID = snatTablePlaceholderID := by
  obtain ⟨c, hc, h1, h2, h3, h4, h5⟩ := deployInfraConfig_ok_fresh spec ns key env cfg hid h
  rw [hcd] at hc
  injection hc with hc'
  subst hc'
  exact ⟨h1, h2, h3, h4, h5⟩

/-- Witness for C7 at a concrete spec and environment with a fresh vpc. -/
theorem deploy_fresh_placeholders_witness :
    (⟨"eu-central-1", true,
        ⟨"10.1.0.0/16", vpcPlaceholderID, natGatewayPlaceholderID,
          snatTablePlaceholderID, DefaultInternetChargeType⟩,
        "cluster-ns", "ssh-key", [⟨"z1", "w1"⟩]⟩ : InfraConfig).createVPC = true ∧
    (⟨"eu-central-1", true,
        ⟨"10.1.0.0/16", vpcPlaceholderID, natGatewayPlaceholderID,
          snatTablePlaceholderID, DefaultInternetChargeType⟩,
        "cluster-ns", "ssh-key", [⟨"z1", "w1"⟩]⟩ : InfraConfig).vpc.cidr = "10.1.0.0/16" ∧
    (⟨"eu-central-1", true,
        ⟨"10.1.0.0/16", vpcPlaceholderID, natGatewayPlaceholderID,
          snatTablePlaceholderID, DefaultInternetChargeType⟩,
        "cluster-ns", "ssh-key", [⟨"z1", "w1"⟩]⟩ : InfraConfig).vpc.id = vpcPlaceholderID ∧
    (⟨"eu-central-1", true,
        ⟨"10.1.0.0/16", vpcPlaceholderID, natGatewayPlaceholderID,
          snatTablePlaceholderID, DefaultInternetChargeType⟩,
        "cluster-ns", "ssh-key",
        [⟨"z1", "w1"⟩]⟩ : InfraConfig).vpc.natGatewayID = natGatewayPlaceholderID ∧
    (⟨"eu-central-1", true,
        ⟨"10.1.0.0/16", vpcPlaceholderID, natGatewayPlaceholderID,
          snatTablePlaceholderID, DefaultInternetChargeType⟩,
        "cluster-ns", "ssh-key",
        [⟨"z1", "w1"⟩]⟩ : InfraConfig).vpc.snatTableID = snatTablePlaceholderID :=
  deploy_fresh_placeholders
    ⟨"eu-central-1", ["z1"], ["w1"], ⟨none, some "10.1.0.0/16"⟩⟩ "cluster-ns" "ssh-key"
    ⟨fun _ => Except.ok "", fun _ => Except.ok ("", ""),
      Except.ok (), ⟨Except.ok (), Except.error Err.notFoundState, fun _ => Except.ok ""⟩⟩
    ⟨"eu-central-1", true,
      ⟨"10.1.0.0/16", vpcPlaceholderID, natGatewayPlaceholderID,
        snatTablePlaceholderID, DefaultInternetChargeType⟩,
      "cluster-ns", "ssh-key", [⟨"z1", "w1"⟩]⟩
    rfl rfl rfl

/-- Claim C10: on every deploy at least one of the existing vpc id and the vpc
CIDR must be present — a spec with both fields absent makes the operation
undefined, since the creation path unconditionally dereferences the vpc CIDR
pointer.  Under that precondition the optional-field dereferences (the vpc
CIDR on the creation path, the vpc id on the adoption path) never fail: the
vpc-settings resolution step is always defined.  The deploy as a whole is
additionally defined when the zone list does not outrun the worker list
(otherwise the separate `Workers[idx]` indexing of the zones loop panics). -/
theorem deploy_requires_vpc_id_or_cidr (spec : ShootSpec) (ns key : String)
    (env : DeployEnv) :
    ((spec.vpc.id.isSome ∨ spec.vpc.cidr.isSome) →
      (resolveVPCSettings spec.vpc env).isSome) ∧
    (spec.zones.length ≤ spec.workers.length →
      (spec.vpc.id.isSome ∨ spec.vpc.cidr.isSome) →
      (deployInfraConfig spec ns key env).isSome) ∧
    (spec.vpc.id = none → spec.vpc.cidr = none →
      deployInfraConfig spec ns key env = none) := by
  refine ⟨?_, ?_, ?_⟩
  · intro hp
    unfold resolveVPCSettings
    cases hid : spec.vpc.id with
    | some vid =>
      cases hc : env.getCIDR vid with
      | error e => simp [hc]
      | ok cidr =>
        cases hn : env.getNatGatewayInfo vid with
        | error e => simp [hc, hn]
        | ok p =>
          obtain ⟨natID, snatID⟩ := p
          simp [hc, hn]
    | none =>
      cases hcd : spec.vpc.cidr with
      | none => rw [hid, hcd] at hp; simp at hp
      | some c => simp
  · intro hlen hp
    unfold deployInfraConfig resolveVPCSettings
    cases hid : spec.vpc.id with
    | some vid =>
      cases hc : env.getCIDR vid with
      | error e => simp [hc]
      | ok cidr =>
        cases hn : env.getNatGatewayInfo vid with
        | error e => simp [hc, hn]
        | ok p =>
          obtain ⟨natID, snatID⟩ := p
          cases htf : env.newShootTf with
          | error e => simp [hc, hn, htf]
          | ok u =>
            simp only [hc, hn, htf]
            exact generateTerraformInfraConfig_isSome spec ns key env.chargeEnv
              false vid natID snatID cidr hlen
    | none =>
      cases hcd : spec.vpc.cidr with
      | none => rw [hid, hcd] at hp; simp at hp
      | some c =>
        cases htf : env.newShootTf with
        | error e => simp [htf]
        | ok u =>
          simp only [htf]
          exact generateTerraformInfraConfig_isSome spec ns key env.chargeEnv
            true vpcPlaceholderID natGatewayPlaceholderID snatTablePlaceholderID c hlen
  · intro h1 h2
    unfold deployInfraConfig resolveVPCSettings
    rw [h1, h2]

/-- Witness for C10: a concrete spec with only a vpc id has a defined
resolution step and (with aligned zone and worker lists) a defined deploy,
and a concrete spec with neither field yields the undefined (panicking) run. -/
theorem deploy_requires_vpc_id_or_cidr_witness :
    (resolveVPCSettings ⟨some "net-1", none⟩
      ⟨fun _ => Except.ok "10.0.0.0/16", fun _ => Except.ok ("ngw-1", "snat-1"),
        Except.ok (), ⟨Except.ok (), Except.error Err.notFoundState,
          fun _ => Except.ok ""⟩⟩).isSome ∧
    (deployInfraConfig ⟨"eu-central-1", ["z1"], ["w1"], ⟨some "net-1", none⟩⟩
      "cluster-ns" "ssh-key"
      ⟨fun _ => Except.ok "10.0.0.0/16", fun _ => Except.ok ("ngw-1", "snat-1"),
        Except.ok (), ⟨Except.ok (), Except.error Err.notFoundState,
          fun _ => Except.ok ""⟩⟩).isSome ∧
    deployInfraConfig ⟨"eu-central-1", ["z1"], ["w1"], ⟨none, none⟩⟩
      "cluster-ns" "ssh-key"
      ⟨fun _ => Except.ok "10.0.0.0/16", fun _ => Except.ok ("ngw-1", "snat-1"),
        Except.ok (), ⟨Except.ok (), Except.error Err.notFoundState,
          fun _ => Except.ok ""⟩⟩ = none :=
  ⟨(deploy_requires_vpc_id_or_cidr ⟨"eu-central-1", ["z1"], ["w1"], ⟨some "net-1", none⟩⟩
      "cluster-ns" "ssh-key" _).1 (Or.inl rfl),
   (deploy_requires_vpc_id_or_cidr ⟨"eu-central-1", ["z1"], ["w1"], ⟨some "net-1", none⟩⟩
      "cluster-ns" "ssh-key" _).2.1 (Nat.le_refl 1) (Or.inl rfl),
   (deploy_requires_vpc_id_or_cidr ⟨"eu-central-1", ["z1"], ["w1"], ⟨none, none⟩⟩
      "cluster-ns" "ssh-key" _).2.2 rfl rfl⟩

end Alicloudbotanist
